import Mathlib

/-!
Verification of the job orchestration subsystem of the InfraAnsible backend
(`backend/app/services/job_service.py` together with the data model in
`backend/app/models.py`).

The service is embedded shallowly: the SQLAlchemy session is a `Store` value
holding the rows of each table, every service method becomes a pure function
from a `Store` (plus its arguments and, where the code reads the wall clock,
an explicit `now : Nat`) to an updated `Store` and a result, and a raised
`ValueError` becomes an `Except.error` carrying the message the code builds.
Python truthiness tests (`if celery_task_id:`, `if start_line:`, ...) are
embedded by explicit truthiness functions on `Option` values, so that `None`,
`""` and `0` are falsy exactly as in the source.
-/

/-- The `job_status` enum of the `jobs` table
(`'pending', 'running', 'success', 'failed', 'cancelled'`). -/
inductive JobStatus
  | pending
  | running
  | success
  | failed
  | cancelled
deriving DecidableEq

/-- Membership of a status in the list `['success', 'failed', 'cancelled']`
tested by `update_job_status` before setting `completed_at`. -/
def JobStatus.isTerminal : JobStatus → Bool
  | .success => true
  | .failed => true
  | .cancelled => true
  | _ => false

/-- A row of the `jobs` table.  Timestamps are abstracted to `Nat` ticks;
nullable columns are `Option`s. -/
structure Job where
  id : Nat
  job_id : String
  playbook_id : Nat
  server_id : Nat
  user_id : Nat
  status : JobStatus
  celery_task_id : Option String
  extra_vars : List (String × String)
  error_message : Option String
  started_at : Option Nat
  completed_at : Option Nat
  created_at : Nat
deriving DecidableEq

/-- A row of the `job_logs` table.  `line_number` is a signed integer column
and is supplied by the caller of `add_job_log`. -/
structure JobLog where
  id : Nat
  job_id : Nat
  line_number : Int
  content : String
  log_level : String
  timestamp : Nat
deriving DecidableEq

/-- The fields of a `playbooks` row that `create_job` reads. -/
structure Playbook where
  id : Nat
  name : String
  is_active : Bool
deriving DecidableEq

/-- The fields of a `servers` row that `create_job` reads. -/
structure Server where
  id : Nat
  hostname : String
  is_active : Bool
deriving DecidableEq

/-- A row of the `audit_logs` table (the fields `_create_audit_log` sets). -/
structure AuditLog where
  user_id : Option Nat
  action : String
  resource_type : String
  resource_id : Nat
  details : List (String × String)
deriving DecidableEq

/-- The database state visible to `JobService`. -/
structure Store where
  playbooks : List Playbook
  servers : List Server
  jobs : List Job
  job_logs : List JobLog
  audit_logs : List AuditLog
deriving DecidableEq

/-- Python truthiness of an optional string: `None` and `""` are falsy. -/
def strTruthy : Option String → Bool
  | none => false
  | some s => s != ""

/-- Python truthiness of an optional integer: `None` and `0` are falsy. -/
def intTruthy : Option Int → Bool
  | none => false
  | some n => n != 0

/-- Python truthiness of an optional natural: `None` and `0` are falsy. -/
def natTruthy : Option Nat → Bool
  | none => false
  | some n => n != 0

/-- `Job.query.get(job_id)`: primary-key lookup in the `jobs` table. -/
def Store.getJob (s : Store) (job_id : Nat) : Option Job :=
  s.jobs.find? (fun j => j.id == job_id)

/-- Committing a mutated ORM `Job` object: the row with the same primary key
is replaced. -/
def Store.putJob (s : Store) (j : Job) : Store :=
  { s with jobs := s.jobs.map (fun x => if x.id == j.id then j else x) }

/-- `JobService._create_audit_log`: appends one row to `audit_logs` with
`resource_type='job'`. -/
def createAuditLog (s : Store) (user_id : Nat) (action : String)
    (resource_id : Nat) (details : List (String × String)) : Store :=
  { s with audit_logs :=
      s.audit_logs ++ [⟨some user_id, action, "job", resource_id, details⟩] }

/-- The field mutations of `JobService.update_job_status` once the job has
been fetched: assign `status`; overwrite `celery_task_id` / `error_message`
when the arguments are truthy; set `started_at` on `running` when unset; set
`completed_at` whenever the new status is in the terminal list. -/
def applyStatusFields (job : Job) (status : JobStatus)
    (error_message celery_task_id : Option String) (now : Nat) : Job :=
  let job := { job with status := status }
  let job := if strTruthy celery_task_id then
    { job with celery_task_id := celery_task_id } else job
  let job := if strTruthy error_message then
    { job with error_message := error_message } else job
  let job := if status == .running && job.started_at.isNone then
    { job with started_at := some now } else job
  if status.isTerminal then { job with completed_at := some now } else job

/-- `JobService.update_job_status(job_id, status, error_message=None,
celery_task_id=None)`.  Raises `ValueError` only when the job is not found;
otherwise applies `applyStatusFields` and commits. -/
def update_job_status (s : Store) (job_id : Nat) (status : JobStatus)
    (error_message celery_task_id : Option String) (now : Nat) :
    Store × Except String Job :=
  match s.getJob job_id with
  | none => (s, .error ("Job with ID " ++ toString job_id ++ " not found"))
  | some job =>
    let job := applyStatusFields job status error_message celery_task_id now
    (s.putJob job, .ok job)

/-- The field mutations of `JobService.cancel_job` once the job has been
fetched: unconditionally set `status='cancelled'` and the fixed message, set
`completed_at` only when unset. -/
def cancelFields (job : Job) (now : Nat) : Job :=
  let job := { job with
    status := JobStatus.cancelled
    error_message := some "Job cancelled by user" }
  if job.completed_at.isNone then
    { job with completed_at := some now } else job

/-- `JobService.cancel_job(job_id, user_id)`: applies `cancelFields`, writes
an audit row, commits.  Raises `ValueError` only when the job is not found. -/
def cancel_job (s : Store) (job_id : Nat) (user_id : Nat) (now : Nat) :
    Store × Except String Job :=
  match s.getJob job_id with
  | none => (s, .error ("Job with ID " ++ toString job_id ++ " not found"))
  | some job =>
    let job := cancelFields job now
    let s := createAuditLog s user_id "CANCEL" job.id
      [("job_id", job.job_id), ("reason", "cancelled_by_user")]
    (s.putJob job, .ok job)

/-- Next auto-increment primary key over a list of already-used keys. -/
def nextId (ids : List Nat) : Nat := ids.foldr max 0 + 1

/-- The `Job(...)` row constructed by `create_job` once validation has
passed: `status='pending'`, the fresh token, `extra_vars or {}`, and all
other mutable fields at their column defaults. -/
def newJobRow (s : Store) (playbook_id server_id user_id : Nat)
    (extra_vars : Option (List (String × String))) (uuid : String)
    (now : Nat) : Job :=
  { id := nextId (s.jobs.map (fun j => j.id))
    job_id := uuid
    playbook_id := playbook_id
    server_id := server_id
    user_id := user_id
    status := JobStatus.pending
    celery_task_id := none
    extra_vars := extra_vars.getD []
    error_message := none
    started_at := none
    completed_at := none
    created_at := now }

/-- `JobService.create_job(playbook_id, server_id, user_id, extra_vars=None)`.
The generated `str(uuid.uuid4())` is passed in as `uuid`; validation happens
before any row is written, so on failure the store is returned unchanged. -/
def create_job (s : Store) (playbook_id server_id user_id : Nat)
    (extra_vars : Option (List (String × String))) (uuid : String)
    (now : Nat) : Store × Except String Job :=
  match s.playbooks.find? (fun p => p.id == playbook_id) with
  | none => (s, .error ("Playbook with ID " ++ toString playbook_id ++
      " not found or inactive"))
  | some playbook =>
    if !playbook.is_active then
      (s, .error ("Playbook with ID " ++ toString playbook_id ++
        " not found or inactive"))
    else
      match s.servers.find? (fun v => v.id == server_id) with
      | none => (s, .error ("Server with ID " ++ toString server_id ++
          " not found or inactive"))
      | some server =>
        if !server.is_active then
          (s, .error ("Server with ID " ++ toString server_id ++
            " not found or inactive"))
        else
          let job := newJobRow s playbook_id server_id user_id
            extra_vars uuid now
          let s := { s with jobs := s.jobs ++ [job] }
          let s := createAuditLog s user_id "CREATE" job.id
            [("job_id", uuid), ("playbook", playbook.name),
             ("server", server.hostname)]
          (s, .ok job)

/-- `JobService.add_job_log(job_id, line_number, content, log_level='INFO')`:
inserts one `job_logs` row carrying the caller-supplied `line_number` and
returns it. -/
def add_job_log (s : Store) (job_id : Nat) (line_number : Int)
    (content : String) (log_level : String) (now : Nat) : Store × JobLog :=
  let entry : JobLog := {
    id := nextId (s.job_logs.map (fun l => l.id))
    job_id := job_id
    line_number := line_number
    content := content
    log_level := log_level
    timestamp := now }
  ({ s with job_logs := s.job_logs ++ [entry] }, entry)

/-- The `ORDER BY line_number` of `get_job_logs`, made deterministic on ties
by the primary key (ties between equal line numbers are not ordered by SQL;
rows have distinct primary keys, so this is a total order on any table). -/
def logLE (a b : JobLog) : Prop :=
  a.line_number < b.line_number ∨
    (a.line_number = b.line_number ∧ a.id ≤ b.id)

instance : DecidableRel logLE := fun a b => by
  unfold logLE; infer_instance

/-- `JobService.get_job_logs(job_id, start_line=None, limit=None)`:
rows of the job, filtered by `line_number >= start_line` when `start_line`
is truthy, ordered by `line_number`, truncated to `limit` when truthy. -/
def get_job_logs (s : Store) (job_id : Nat) (start_line : Option Int)
    (limit : Option Nat) : List JobLog :=
  let q := s.job_logs.filter (fun l => l.job_id == job_id)
  let q := if intTruthy start_line then
    q.filter (fun l => decide (start_line.getD 0 ≤ l.line_number)) else q
  let q := List.insertionSort logLE q
  if natTruthy limit then q.take (limit.getD 0) else q

/-- An empty database with just a `jobs` table content, used as test input. -/
def mkStore (jobs : List Job) : Store :=
  { playbooks := [], servers := [], jobs := jobs, job_logs := [],
    audit_logs := [] }

/-- A sample `jobs` row used in concrete test stores and witnesses. -/
def sampleJob (st : JobStatus) (ct : Option String) (sa ca : Option Nat) :
    Job :=
  { id := 1, job_id := "tok-1", playbook_id := 1, server_id := 1,
    user_id := 1, status := st, celery_task_id := ct, extra_vars := [],
    error_message := none, started_at := sa, completed_at := ca,
    created_at := 0 }

/-- The playbook reference check of `create_job`: the playbook row exists
and `is_active` holds. -/
def playbookOk (s : Store) (pid : Nat) : Bool :=
  match s.playbooks.find? (fun p => p.id == pid) with
  | none => false
  | some p => p.is_active

/-- The server reference check of `create_job`: the server row exists and
`is_active` holds. -/
def serverOk (s : Store) (sid : Nat) : Bool :=
  match s.servers.find? (fun v => v.id == sid) with
  | none => false
  | some v => v.is_active

/-- A store holding one active playbook and one active server, used as
test input for `create_job`. -/
def demoRegistryStore : Store :=
  { playbooks := [{ id := 1, name := "deploy", is_active := true }],
    servers := [{ id := 1, hostname := "host-1", is_active := true }],
    jobs := [], job_logs := [], audit_logs := [] }

/-- A minimal `jobs` row with a given primary key and status, used to
build concrete statistics stores. -/
def mkJob (i : Nat) (st : JobStatus) : Job :=
  { id := i, job_id := toString i, playbook_id := 1, server_id := 1,
    user_id := 1, status := st, celery_task_id := none, extra_vars := [],
    error_message := none, started_at := none, completed_at := none,
    created_at := 0 }

/-- An empty database with just a `job_logs` table content. -/
def mkLogStore (logs : List JobLog) : Store :=
  { playbooks := [], servers := [], jobs := [], job_logs := logs,
    audit_logs := [] }

/-- A stored log line with a negative caller-supplied line number. -/
def negLog : JobLog :=
  { id := 1, job_id := 1, line_number := -1, content := "neg",
    log_level := "INFO", timestamp := 0 }

/-- The store of the spec's Scenario D: lines `"line-0"`, `"line-1"`,
`"line-2"` appended in order for job 1 with line numbers 0, 1, 2. -/
def scenarioDStore : Store :=
  (add_job_log (add_job_log (add_job_log (mkLogStore []) 1 0 "line-0"
    "INFO" 0).1 1 1 "line-1" "INFO" 1).1 1 2 "line-2" "INFO" 2).1

/-- The dictionary returned by `get_job_statistics`. -/
structure JobStatistics where
  total : Nat
  pending : Nat
  running : Nat
  success : Nat
  failed : Nat
  cancelled : Nat
  success_rate : Rat
deriving DecidableEq

/-- Rounding half-to-even to an integer: the rounding Python's `round`
performs.  (The code rounds a binary float; on the rationals produced by
the statistics formula at the magnitudes considered here the two agree,
and the scenario values of the spec are exact.) -/
def roundHalfEven (q : Rat) : Int :=
  let f := q.floor
  let r := q - f
  if r < 1/2 then f
  else if 1/2 < r then f + 1
  else if f % 2 == 0 then f else f + 1

/-- `round(x, 2)`: round to two decimal places, half to even. -/
def pyRound2 (q : Rat) : Rat := (roundHalfEven (q * 100) : Rat) / 100

/-- `JobService.get_job_statistics(user_id=None)`: per-status counts over
the (optionally user-filtered) `jobs` table plus the derived
`success_rate = round((total - failed) / total * 100, 2)`, `0` when the
table is empty. -/
def get_job_statistics (s : Store) (user_id : Option Nat) :
    JobStatistics :=
  let q := if natTruthy user_id then
    s.jobs.filter (fun j => j.user_id == user_id.getD 0) else s.jobs
  let total := q.length
  let failed := (q.filter (fun j => j.status == JobStatus.failed)).length
  { total := total
    pending := (q.filter (fun j => j.status == JobStatus.pending)).length
    running := (q.filter (fun j => j.status == JobStatus.running)).length
    success := (q.filter (fun j => j.status == JobStatus.success)).length
    failed := failed
    cancelled :=
      (q.filter (fun j => j.status == JobStatus.cancelled)).length
    success_rate := if 0 < total then
      pyRound2 (((total : Rat) - (failed : Rat)) / (total : Rat) * 100)
      else 0 }

/-- The ten-job store of the spec's Scenario E: 7 success, 2 failed,
1 cancelled. -/
def scenarioEStore : Store :=
  mkStore [mkJob 1 JobStatus.success, mkJob 2 JobStatus.success,
    mkJob 3 JobStatus.success, mkJob 4 JobStatus.success,
    mkJob 5 JobStatus.success, mkJob 6 JobStatus.success,
    mkJob 7 JobStatus.success, mkJob 8 JobStatus.failed,
    mkJob 9 JobStatus.failed, mkJob 10 JobStatus.cancelled]

instance : IsTotal JobLog logLE where
  total a b := by
    unfold logLE
    rcases lt_trichotomy a.line_number b.line_number with h | h | h
    · exact Or.inl (Or.inl h)
    · rcases Nat.le_total a.id b.id with h2 | h2
      · exact Or.inl (Or.inr ⟨h, h2⟩)
      · exact Or.inr (Or.inr ⟨h.symm, h2⟩)
    · exact Or.inr (Or.inl h)

instance : IsTrans JobLog logLE where
  trans a b c hab hbc := by
    unfold logLE at *
    rcases hab with h | ⟨h1, h2⟩ <;> rcases hbc with g | ⟨g1, g2⟩
    · exact Or.inl (h.trans g)
    · exact Or.inl (g1 ▸ h)
    · exact Or.inl (h1 ▸ g)
    · exact Or.inr ⟨h1.trans g1, h2.trans g2⟩

/-- Closed form of `applyStatusFields`: each field of the result. -/
theorem applyStatusFields_eq (j : Job) (st : JobStatus)
    (em ct : Option String) (now : Nat) :
    applyStatusFields j st em ct now = { j with
      status := st
      celery_task_id := if strTruthy ct then ct else j.celery_task_id
      error_message := if strTruthy em then em else j.error_message
      started_at := if st == JobStatus.running && j.started_at.isNone then
        some now else j.started_at
      completed_at := if st.isTerminal then some now else j.completed_at } := by
  unfold applyStatusFields
  cases hct : strTruthy ct <;> cases hem : strTruthy em <;>
    cases hrun : (st == JobStatus.running && j.started_at.isNone) <;>
    cases hterm : st.isTerminal <;>
    simp [hct, hem, hrun, hterm]

/-- Closed form of `cancelFields`: each field of the result. -/
theorem cancelFields_eq (j : Job) (now : Nat) :
    cancelFields j now = { j with
      status := JobStatus.cancelled
      error_message := some "Job cancelled by user"
      completed_at := if j.completed_at.isNone then some now
        else j.completed_at } := by
  unfold cancelFields
  cases hc : j.completed_at.isNone <;> simp [hc]

/-- Replacing the row whose key was found leaves it findable: the committed
row is the one a later primary-key lookup returns. -/
theorem find?_map_put (l : List Job) (jid : Nat) (j j' : Job)
    (h : l.find? (fun x => x.id == jid) = some j) (hid : j'.id = j.id) :
    (l.map (fun x => if x.id == j'.id then j' else x)).find?
      (fun x => x.id == jid) = some j' := by
  have hj : j.id = jid := by simpa using List.find?_some h
  induction l with
  | nil => simp at h
  | cons a t ih =>
    by_cases ha : (a.id == jid) = true
    · rw [List.find?_cons_of_pos (p := fun x : Job => x.id == jid) _ ha] at h
      injection h with h
      subst h
      have h1 : (a.id == j'.id) = true := by simp [hid]
      have h2 : (j'.id == jid) = true := by simp [hid, hj]
      simp only [List.map_cons, if_pos h1]
      exact List.find?_cons_of_pos _ h2
    · rw [List.find?_cons_of_neg (p := fun x : Job => x.id == jid) _ ha] at h
      have h1 : (a.id == j'.id) = false := by
        simp only [hid, hj]
        simpa using ha
      simp only [List.map_cons, h1, if_neg, Bool.false_eq_true,
        not_false_eq_true]
      rw [List.find?_cons_of_neg (p := fun x : Job => x.id == jid) _ ha]
      exact ih h

/-- `Store` version of `find?_map_put`. -/
theorem getJob_putJob (s : Store) (jid : Nat) (j j' : Job)
    (h : s.getJob jid = some j) (hid : j'.id = j.id) :
    (s.putJob j').getJob jid = some j' := by
  unfold Store.getJob Store.putJob at *
  exact find?_map_put s.jobs jid j j' h hid

/-- `applyStatusFields` does not touch the primary key. -/
theorem applyStatusFields_id (j : Job) (st : JobStatus)
    (em ct : Option String) (now : Nat) :
    (applyStatusFields j st em ct now).id = j.id := by
  rw [applyStatusFields_eq]

/-- Unfolding of `update_job_status` when the job is found. -/
theorem update_job_status_found (s : Store) (jid : Nat) (j : Job)
    (st : JobStatus) (em ct : Option String) (now : Nat)
    (h : s.getJob jid = some j) :
    update_job_status s jid st em ct now =
      (s.putJob (applyStatusFields j st em ct now),
       Except.ok (applyStatusFields j st em ct now)) := by
  unfold update_job_status
  rw [h]

/-- Unfolding of `cancel_job` when the job is found. -/
theorem cancel_job_found (s : Store) (jid : Nat) (j : Job) (uid now : Nat)
    (h : s.getJob jid = some j) :
    cancel_job s jid uid now =
      ((createAuditLog s uid "CANCEL" (cancelFields j now).id
          [("job_id", (cancelFields j now).job_id),
           ("reason", "cancelled_by_user")]).putJob (cancelFields j now),
       Except.ok (cancelFields j now)) := by
  unfold cancel_job
  rw [h]

/-- `cancelFields` does not touch the primary key. -/
theorem cancelFields_id (j : Job) (now : Nat) :
    (cancelFields j now).id = j.id := by
  rw [cancelFields_eq]

/-- `createAuditLog` does not touch the `jobs` table. -/
theorem getJob_createAuditLog (s : Store) (uid : Nat) (a : String)
    (rid : Nat) (d : List (String × String)) (jid : Nat) :
    (createAuditLog s uid a rid d).getJob jid = s.getJob jid := rfl

/-- C1 counterexample: the job with id 1 is in the terminal state
`success`, yet `update_job_status` to `running` is accepted — it returns
the updated job instead of failing, and the status changes from `success`
to `running` (the claimed `InvalidTransitionError` rejection does not
exist in `update_job_status`). -/
theorem update_status_from_terminal_accepted_cex :
    (update_job_status
        (mkStore [sampleJob JobStatus.success none (some 5) (some 10)])
        1 JobStatus.running none none 20).2 =
      Except.ok (sampleJob JobStatus.running none (some 5) (some 10)) ∧
    JobStatus.running ≠ JobStatus.success := by
  exact ⟨rfl, by decide⟩

/-- C1 (amended): a call to `update_job_status` on a job in a terminal
state does not fail; it overwrites `status` with the requested value,
leaves `started_at` unchanged unless the new status is `running` and
`started_at` is unset, and overwrites `completed_at` with the current time
exactly when the new status is terminal. -/
theorem update_status_from_terminal_overwrites (s : Store) (jid : Nat)
    (j : Job) (st : JobStatus) (em ct : Option String) (now : Nat)
    (hfind : s.getJob jid = some j)
    (_hterm : j.status.isTerminal = true) :
    ∃ j', (update_job_status s jid st em ct now).2 = Except.ok j' ∧
      (update_job_status s jid st em ct now).1.getJob jid = some j' ∧
      j'.status = st ∧
      j'.started_at = (if st == JobStatus.running && j.started_at.isNone
        then some now else j.started_at) ∧
      j'.completed_at = (if st.isTerminal then some now
        else j.completed_at) := by
  refine ⟨applyStatusFields j st em ct now, ?_, ?_, ?_, ?_, ?_⟩
  · rw [update_job_status_found s jid j st em ct now hfind]
  · rw [update_job_status_found s jid j st em ct now hfind]
    exact getJob_putJob s jid j _ hfind (applyStatusFields_id j st em ct now)
  · rw [applyStatusFields_eq]
  · rw [applyStatusFields_eq]
  · rw [applyStatusFields_eq]

/-- Witness for `update_status_from_terminal_overwrites` at a concrete
store: a `success` job updated to `failed`. -/
theorem update_status_from_terminal_overwrites_witness :
    ∃ j', (update_job_status
        (mkStore [sampleJob JobStatus.success none (some 5) (some 10)])
        1 JobStatus.failed none none 20).2 = Except.ok j' ∧
      (update_job_status
        (mkStore [sampleJob JobStatus.success none (some 5) (some 10)])
        1 JobStatus.failed none none 20).1.getJob 1 = some j' ∧
      j'.status = JobStatus.failed ∧
      j'.started_at = (if JobStatus.failed == JobStatus.running &&
          (sampleJob JobStatus.success none (some 5) (some 10)).started_at.isNone
        then some 20
        else (sampleJob JobStatus.success none (some 5) (some 10)).started_at) ∧
      j'.completed_at = (if JobStatus.failed.isTerminal then some 20
        else (sampleJob JobStatus.success none (some 5) (some 10)).completed_at) :=
  update_status_from_terminal_overwrites
    (mkStore [sampleJob JobStatus.success none (some 5) (some 10)]) 1
    (sampleJob JobStatus.success none (some 5) (some 10))
    JobStatus.failed none none 20 (by decide) (by decide)

/-- C2 counterexample: cancelling a job whose status is `success` is
accepted — `cancel_job` returns the cancelled job instead of failing with
the claimed `InvalidTransitionError`. -/
theorem cancel_job_from_success_accepted_cex :
    (cancel_job (mkStore [sampleJob JobStatus.success none (some 5) (some 10)])
        1 9 20).2 =
      Except.ok { sampleJob JobStatus.success none (some 5) (some 10) with
        status := JobStatus.cancelled
        error_message := some "Job cancelled by user" } ∧
    JobStatus.success.isTerminal = true := by
  exact ⟨rfl, by decide⟩

/-- C2 (amended): whenever the job exists, `cancel_job` succeeds from
every status (including `success` and `cancelled`); it sets `status` to
`cancelled`, sets `error_message` to the fixed marker
`"Job cancelled by user"`, and sets `completed_at` to the current time if
it was unset, leaving it unchanged otherwise. -/
theorem cancel_job_any_status_spec (s : Store) (jid uid now : Nat) (j : Job)
    (hfind : s.getJob jid = some j) :
    ∃ j', (cancel_job s jid uid now).2 = Except.ok j' ∧
      (cancel_job s jid uid now).1.getJob jid = some j' ∧
      j'.status = JobStatus.cancelled ∧
      j'.error_message = some "Job cancelled by user" ∧
      j'.completed_at = (if j.completed_at.isNone then some now
        else j.completed_at) := by
  refine ⟨cancelFields j now, ?_, ?_, ?_, ?_, ?_⟩
  · rw [cancel_job_found s jid j uid now hfind]
  · rw [cancel_job_found s jid j uid now hfind]
    refine getJob_putJob _ jid j _ ?_ (cancelFields_id j now)
    rw [getJob_createAuditLog]
    exact hfind
  · rw [cancelFields_eq]
  · rw [cancelFields_eq]
  · rw [cancelFields_eq]

/-- Witness for `cancel_job_any_status_spec` at a concrete store: a
`running` job is cancelled. -/
theorem cancel_job_any_status_spec_witness :
    ∃ j', (cancel_job (mkStore [sampleJob JobStatus.running none (some 5) none])
        1 9 20).2 = Except.ok j' ∧
      (cancel_job (mkStore [sampleJob JobStatus.running none (some 5) none])
        1 9 20).1.getJob 1 = some j' ∧
      j'.status = JobStatus.cancelled ∧
      j'.error_message = some "Job cancelled by user" ∧
      j'.completed_at =
        (if (sampleJob JobStatus.running none (some 5) none).completed_at.isNone
          then some 20
          else (sampleJob JobStatus.running none (some 5) none).completed_at) :=
  cancel_job_any_status_spec
    (mkStore [sampleJob JobStatus.running none (some 5) none]) 1 9 20
    (sampleJob JobStatus.running none (some 5) none) (by decide)

/-- Re-applying the same status with the same arguments changes nothing
except `completed_at`, which is refreshed when the status is terminal. -/
theorem applyStatusFields_redelivery (j : Job) (st : JobStatus)
    (em ct : Option String) (n1 n2 : Nat) :
    applyStatusFields (applyStatusFields j st em ct n1) st em ct n2 =
      (if st.isTerminal
        then { applyStatusFields j st em ct n1 with completed_at := some n2 }
        else applyStatusFields j st em ct n1) := by
  simp only [applyStatusFields_eq]
  cases hct : strTruthy ct <;> cases hem : strTruthy em <;>
    cases hr : (st == JobStatus.running) <;> cases hsa : j.started_at <;>
    cases ht : st.isTerminal <;>
    simp [hct, hem, hr, hsa, ht]

/-- C3 counterexample: re-delivering `success` for the same job is not a
no-op — the second delivery refreshes `completed_at` with the later wall
clock, so the observable state after two deliveries differs from the
state after one. -/
theorem update_status_redelivery_not_idempotent_cex :
    (update_job_status (mkStore [sampleJob JobStatus.pending none none none])
        1 JobStatus.success none none 1).2 =
      Except.ok (sampleJob JobStatus.success none none (some 1)) ∧
    (update_job_status
        (update_job_status (mkStore [sampleJob JobStatus.pending none none none])
          1 JobStatus.success none none 1).1
        1 JobStatus.success none none 2).2 =
      Except.ok (sampleJob JobStatus.success none none (some 2)) ∧
    (sampleJob JobStatus.success none none (some 2)).completed_at ≠
      (sampleJob JobStatus.success none none (some 1)).completed_at := by
  exact ⟨rfl, rfl, by decide⟩

/-- C3 (amended): delivering the same `(job_id, status)` pair (with the
same optional arguments) twice in a row yields the same `status`,
`started_at`, `error_message` and `celery_task_id` as delivering it once;
for a non-terminal status the second delivery is a complete no-op on the
job, but for a terminal status `completed_at` is refreshed to the second
delivery's time. -/
theorem update_status_redelivery_spec (s : Store) (jid : Nat) (j : Job)
    (st : JobStatus) (em ct : Option String) (n1 n2 : Nat)
    (hfind : s.getJob jid = some j) :
    ∃ j1 j2,
      (update_job_status s jid st em ct n1).2 = Except.ok j1 ∧
      (update_job_status (update_job_status s jid st em ct n1).1
        jid st em ct n2).2 = Except.ok j2 ∧
      j2.status = j1.status ∧
      j2.started_at = j1.started_at ∧
      j2.error_message = j1.error_message ∧
      j2.celery_task_id = j1.celery_task_id ∧
      (st.isTerminal = false → j2 = j1) ∧
      (st.isTerminal = true →
        j1.completed_at = some n1 ∧ j2.completed_at = some n2) := by
  have h1 := update_job_status_found s jid j st em ct n1 hfind
  have hmid : (update_job_status s jid st em ct n1).1.getJob jid =
      some (applyStatusFields j st em ct n1) := by
    rw [h1]
    exact getJob_putJob s jid j _ hfind (applyStatusFields_id j st em ct n1)
  have h2 := update_job_status_found _ jid _ st em ct n2 hmid
  refine ⟨applyStatusFields j st em ct n1,
    applyStatusFields (applyStatusFields j st em ct n1) st em ct n2,
    by rw [h1], by rw [h2], ?_, ?_, ?_, ?_, ?_, ?_⟩
  · rw [applyStatusFields_redelivery]
    cases ht : st.isTerminal <;> simp [ht]
  · rw [applyStatusFields_redelivery]
    cases ht : st.isTerminal <;> simp [ht]
  · rw [applyStatusFields_redelivery]
    cases ht : st.isTerminal <;> simp [ht]
  · rw [applyStatusFields_redelivery]
    cases ht : st.isTerminal <;> simp [ht]
  · intro ht
    rw [applyStatusFields_redelivery]
    simp [ht]
  · intro ht
    constructor
    · rw [applyStatusFields_eq]
      simp [ht]
    · rw [applyStatusFields_redelivery]
      simp [ht]

/-- Witness for `update_status_redelivery_spec`: `success` delivered twice
to a pending job at times 1 and 2. -/
theorem update_status_redelivery_spec_witness :
    ∃ j1 j2,
      (update_job_status (mkStore [sampleJob JobStatus.pending none none none])
        1 JobStatus.success none none 1).2 = Except.ok j1 ∧
      (update_job_status
        (update_job_status (mkStore [sampleJob JobStatus.pending none none none])
          1 JobStatus.success none none 1).1
        1 JobStatus.success none none 2).2 = Except.ok j2 ∧
      j2.status = j1.status ∧
      j2.started_at = j1.started_at ∧
      j2.error_message = j1.error_message ∧
      j2.celery_task_id = j1.celery_task_id ∧
      (JobStatus.success.isTerminal = false → j2 = j1) ∧
      (JobStatus.success.isTerminal = true →
        j1.completed_at = some 1 ∧ j2.completed_at = some 2) :=
  update_status_redelivery_spec
    (mkStore [sampleJob JobStatus.pending none none none]) 1
    (sampleJob JobStatus.pending none none none)
    JobStatus.success none none 1 2 (by decide)

/-- C4 counterexample: after `success` at time 1 and then `pending` at
time 2, the job's status is the non-terminal `pending` while
`completed_at` is still `some 1` — refuting "`completed_at` is non-null
if and only if the status is terminal" (and time 2's redelivery refresh
refutes "once set it never changes", see the C3 counterexample). -/
theorem completed_at_iff_terminal_cex :
    (update_job_status
        (update_job_status (mkStore [sampleJob JobStatus.pending none none none])
          1 JobStatus.success none none 1).1
        1 JobStatus.pending none none 2).2 =
      Except.ok (sampleJob JobStatus.pending none none (some 1)) ∧
    JobStatus.pending.isTerminal = false ∧
    (sampleJob JobStatus.pending none none (some 1)).completed_at ≠ none := by
  exact ⟨rfl, by decide, by decide⟩

/-- C4 (amended): `update_job_status` overwrites `completed_at` with the
current time exactly when the new status is terminal (so it changes on
repeated terminal deliveries) and leaves it untouched otherwise — in
particular it is never cleared, but it can remain set while the status is
non-terminal; `cancel_job` sets `completed_at` only if it was unset. -/
theorem completed_at_update_cancel_spec (s : Store) (jid uid now : Nat)
    (j : Job) (st : JobStatus) (em ct : Option String)
    (hfind : s.getJob jid = some j) :
    (∃ j', (update_job_status s jid st em ct now).2 = Except.ok j' ∧
      j'.completed_at = (if st.isTerminal then some now
        else j.completed_at) ∧
      (j.completed_at.isSome = true → j'.completed_at.isSome = true)) ∧
    (∃ j'', (cancel_job s jid uid now).2 = Except.ok j'' ∧
      j''.completed_at = (if j.completed_at.isNone then some now
        else j.completed_at) ∧
      j''.completed_at.isSome = true) := by
  constructor
  · refine ⟨applyStatusFields j st em ct now,
      by rw [update_job_status_found s jid j st em ct now hfind], ?_, ?_⟩
    · rw [applyStatusFields_eq]
    · intro hs
      rw [applyStatusFields_eq]
      cases ht : st.isTerminal <;> simp [ht, hs]
  · refine ⟨cancelFields j now,
      by rw [cancel_job_found s jid j uid now hfind], ?_, ?_⟩
    · rw [cancelFields_eq]
    · rw [cancelFields_eq]
      cases hc : j.completed_at <;> simp [hc]

/-- Witness for `completed_at_update_cancel_spec`: a running job with
`completed_at` unset, updated to `failed` and (independently) cancelled,
both at time 20. -/
theorem completed_at_update_cancel_spec_witness :
    (∃ j', (update_job_status
        (mkStore [sampleJob JobStatus.running none (some 5) none])
        1 JobStatus.failed none none 20).2 = Except.ok j' ∧
      j'.completed_at = (if JobStatus.failed.isTerminal then some 20
        else (sampleJob JobStatus.running none (some 5) none).completed_at) ∧
      ((sampleJob JobStatus.running none (some 5) none).completed_at.isSome =
          true → j'.completed_at.isSome = true)) ∧
    (∃ j'', (cancel_job (mkStore [sampleJob JobStatus.running none (some 5) none])
        1 9 20).2 = Except.ok j'' ∧
      j''.completed_at =
        (if (sampleJob JobStatus.running none (some 5) none).completed_at.isNone
          then some 20
          else (sampleJob JobStatus.running none (some 5) none).completed_at) ∧
      j''.completed_at.isSome = true) :=
  completed_at_update_cancel_spec
    (mkStore [sampleJob JobStatus.running none (some 5) none]) 1 9 20
    (sampleJob JobStatus.running none (some 5) none)
    JobStatus.failed none none (by decide)

/-- C5 counterexample: the job already holds worker handle `"w-1"`, yet a
status update carrying the different handle `"w-2"` is accepted and
silently overwrites the stored handle — no `ConflictError` exists. -/
theorem celery_task_id_overwrite_cex :
    (update_job_status
        (mkStore [sampleJob JobStatus.pending (some "w-1") none none])
        1 JobStatus.pending none (some "w-2") 5).2 =
      Except.ok (sampleJob JobStatus.pending (some "w-2") none none) ∧
    (some "w-2" : Option String) ≠ some "w-1" := by
  exact ⟨rfl, by decide⟩

/-- C5 (amended): `update_job_status` overwrites `celery_task_id` with the
argument whenever the argument is truthy (non-`None`, non-empty) — so a
repeated dispatch record with the same handle is idempotent, but a
different handle silently replaces the stored one — and leaves the stored
handle unchanged when the argument is `None` or `""`. -/
theorem celery_task_id_update_spec (s : Store) (jid now : Nat) (j : Job)
    (st : JobStatus) (em ct : Option String)
    (hfind : s.getJob jid = some j) :
    ∃ j', (update_job_status s jid st em ct now).2 = Except.ok j' ∧
      j'.celery_task_id = (if strTruthy ct then ct
        else j.celery_task_id) := by
  refine ⟨applyStatusFields j st em ct now,
    by rw [update_job_status_found s jid j st em ct now hfind], ?_⟩
  rw [applyStatusFields_eq]

/-- Witness for `celery_task_id_update_spec`: handle `"w-2"` delivered to
a job already holding `"w-1"`. -/
theorem celery_task_id_update_spec_witness :
    ∃ j', (update_job_status
        (mkStore [sampleJob JobStatus.pending (some "w-1") none none])
        1 JobStatus.pending none (some "w-2") 5).2 = Except.ok j' ∧
      j'.celery_task_id = (if strTruthy (some "w-2") then some "w-2"
        else (sampleJob JobStatus.pending (some "w-1") none none).celery_task_id) :=
  celery_task_id_update_spec
    (mkStore [sampleJob JobStatus.pending (some "w-1") none none]) 1 5
    (sampleJob JobStatus.pending (some "w-1") none none)
    JobStatus.pending none (some "w-2") (by decide)

/-- C6 counterexample: `add_job_log` takes the line number from its
caller; appending line 5 and then line 3 for the same job is accepted and
stored as-is, so the stored line numbers `[5, 3]` are not strictly
increasing in append order — the claimed service-side per-job counter
does not exist. -/
theorem add_job_log_not_monotone_cex :
    ((add_job_log (add_job_log (mkStore []) 1 5 "line-a" "INFO" 0).1
        1 3 "line-b" "INFO" 1).1.job_logs.map
      (fun l => l.line_number)) = [5, 3] ∧
    ¬ List.Pairwise (fun a b : Int => a < b) [(5 : Int), 3] := by
  exact ⟨rfl, by decide⟩

/-- C6 (amended): `add_job_log` stores one row carrying exactly the
caller-supplied `line_number` (and content), appended after all existing
rows; the service assigns no number itself, so uniqueness and
monotonicity of line numbers hold only if the callers supply them so. -/
theorem add_job_log_stores_caller_line_number (s : Store) (jid : Nat)
    (n : Int) (c lvl : String) (now : Nat) :
    (add_job_log s jid n c lvl now).2.line_number = n ∧
    (add_job_log s jid n c lvl now).2.job_id = jid ∧
    (add_job_log s jid n c lvl now).2.content = c ∧
    (add_job_log s jid n c lvl now).1.job_logs =
      s.job_logs ++ [(add_job_log s jid n c lvl now).2] := by
  exact ⟨rfl, rfl, rfl, rfl⟩

/-- C7: `create_job` fails (raising `ValueError`, the code's rendering of
the spec's `ReferenceError`) whenever the playbook is missing or inactive
or the server is missing or inactive, and in every such failure the store
is unchanged — no job row is persisted; when both references are valid it
appends exactly one job with status `pending` carrying the fresh token,
and token uniqueness is preserved. -/
theorem create_job_spec (s : Store) (pid sid uid : Nat)
    (ev : Option (List (String × String))) (uuid : String) (now : Nat)
    (hfresh : uuid ∉ s.jobs.map (fun j => j.job_id))
    (hnodup : (s.jobs.map (fun j => j.job_id)).Nodup) :
    ((playbookOk s pid = false ∨ serverOk s sid = false) →
      (create_job s pid sid uid ev uuid now).1 = s ∧
      ∃ msg, (create_job s pid sid uid ev uuid now).2 = Except.error msg) ∧
    (playbookOk s pid = true → serverOk s sid = true →
      ∃ j, (create_job s pid sid uid ev uuid now).2 = Except.ok j ∧
        j.status = JobStatus.pending ∧
        j.job_id = uuid ∧
        (create_job s pid sid uid ev uuid now).1.jobs = s.jobs ++ [j] ∧
        ((create_job s pid sid uid ev uuid now).1.jobs.map
          (fun j => j.job_id)).Nodup) := by
  constructor
  · intro hbad
    cases hp : s.playbooks.find? (fun p => p.id == pid) with
    | none =>
      refine ⟨by simp [create_job, hp], ?_⟩
      simp [create_job, hp]
    | some p =>
      cases ha : p.is_active with
      | false =>
        refine ⟨by simp [create_job, hp, ha], ?_⟩
        simp [create_job, hp, ha]
      | true =>
        cases hs : s.servers.find? (fun v => v.id == sid) with
        | none =>
          refine ⟨by simp [create_job, hp, ha, hs], ?_⟩
          simp [create_job, hp, ha, hs]
        | some v =>
          cases hb : v.is_active with
          | false =>
            refine ⟨by simp [create_job, hp, ha, hs, hb], ?_⟩
            simp [create_job, hp, ha, hs, hb]
          | true =>
            exfalso
            rcases hbad with hbad | hbad <;>
              simp [playbookOk, serverOk, hp, ha, hs, hb] at hbad
  · intro hpok hsok
    cases hp : s.playbooks.find? (fun p => p.id == pid) with
    | none => simp [playbookOk, hp] at hpok
    | some p =>
      cases ha : p.is_active with
      | false => simp [playbookOk, hp, ha] at hpok
      | true =>
        cases hs : s.servers.find? (fun v => v.id == sid) with
        | none => simp [serverOk, hs] at hsok
        | some v =>
          cases hb : v.is_active with
          | false => simp [serverOk, hs, hb] at hsok
          | true =>
            refine ⟨newJobRow s pid sid uid ev uuid now,
              by simp [create_job, hp, ha, hs, hb], rfl, rfl,
              by simp [create_job, hp, ha, hs, hb, createAuditLog], ?_⟩
            have hjobs : (create_job s pid sid uid ev uuid now).1.jobs =
                s.jobs ++ [newJobRow s pid sid uid ev uuid now] := by
              simp [create_job, hp, ha, hs, hb, createAuditLog]
            rw [hjobs]
            simp only [newJobRow, List.map_append, List.map_cons,
              List.map_nil]
            rw [List.nodup_append]
            refine ⟨hnodup, by simp, ?_⟩
            intro a hmem
            simp only [List.mem_singleton]
            intro heq
            exact hfresh (heq ▸ hmem)

/-- Witness for `create_job_spec`: `demoRegistryStore` with both
references valid; the fresh token is `"u-1"`. -/
theorem create_job_spec_witness :
    ((playbookOk demoRegistryStore 1 = false ∨
      serverOk demoRegistryStore 1 = false) →
      (create_job demoRegistryStore 1 1 7 none "u-1" 3).1 =
        demoRegistryStore ∧
      ∃ msg, (create_job demoRegistryStore 1 1 7 none "u-1" 3).2 =
        Except.error msg) ∧
    (playbookOk demoRegistryStore 1 = true →
      serverOk demoRegistryStore 1 = true →
      ∃ j, (create_job demoRegistryStore 1 1 7 none "u-1" 3).2 =
          Except.ok j ∧
        j.status = JobStatus.pending ∧
        j.job_id = "u-1" ∧
        (create_job demoRegistryStore 1 1 7 none "u-1" 3).1.jobs =
          demoRegistryStore.jobs ++ [j] ∧
        ((create_job demoRegistryStore 1 1 7 none "u-1" 3).1.jobs.map
          (fun j => j.job_id)).Nodup) :=
  create_job_spec demoRegistryStore 1 1 7 none "u-1" 3
    (by decide) (by decide)

/-- Every job has exactly one status, so the five per-status counts of a
table partition it. -/
theorem status_counts_partition (l : List Job) :
    (l.filter (fun j => j.status == JobStatus.pending)).length +
    (l.filter (fun j => j.status == JobStatus.running)).length +
    (l.filter (fun j => j.status == JobStatus.success)).length +
    (l.filter (fun j => j.status == JobStatus.failed)).length +
    (l.filter (fun j => j.status == JobStatus.cancelled)).length =
      l.length := by
  induction l with
  | nil => rfl
  | cons a t ih =>
    cases hst : a.status <;> simp [List.filter_cons, hst] <;> omega


/-- `Rat.floor` agrees with the `FloorRing` floor on `ℚ`. -/
theorem ratFloor_eq_intFloor (q : Rat) : q.floor = ⌊q⌋ := by
  rw [Rat.floor_def', Rat.floor_def]

/-- `roundHalfEven` written with the `FloorRing` floor, for evaluation. -/
theorem roundHalfEven_eval (q : Rat) :
    roundHalfEven q = (if q - ⌊q⌋ < 1/2 then ⌊q⌋
      else if 1/2 < q - ⌊q⌋ then ⌊q⌋ + 1
      else if ⌊q⌋ % 2 == 0 then ⌊q⌋ else ⌊q⌋ + 1) := by
  unfold roundHalfEven
  rw [ratFloor_eq_intFloor]

/-- `round(200/3, 2) = 66.67`: the concrete two-decimal rounding. -/
theorem pyRound2_two_thirds : pyRound2 ((200 : Rat)/3) = 6667/100 := by
  unfold pyRound2
  have h3 : (200 : Rat)/3 * 100 = 20000/3 := by norm_num
  have hf : ⌊(20000 : Rat)/3⌋ = 6666 := by
    rw [show (20000 : Rat) = ((20000 : Int) : Rat) by norm_num,
      show (3 : Rat) = ((3 : Nat) : Rat) by norm_num,
      Rat.floor_intCast_div_natCast]
    norm_num
  rw [h3, roundHalfEven_eval, hf]
  have hc1 : ¬((20000 : Rat)/3 - ((6666 : Int) : Rat) < 1/2) := by
    push_cast
    norm_num
  have hc2 : (1/2 : Rat) < (20000 : Rat)/3 - ((6666 : Int) : Rat) := by
    push_cast
    norm_num
  rw [if_neg hc1, if_pos hc2]
  push_cast
  norm_num

/-- `round(80, 2) = 80`: the rounding is exact on this value. -/
theorem pyRound2_eighty : pyRound2 (80 : Rat) = 80 := by
  unfold pyRound2
  have h8 : (80 : Rat) * 100 = ((8000 : Int) : Rat) := by push_cast; norm_num
  rw [h8, roundHalfEven_eval, Int.floor_intCast]
  have hc1 : ((8000 : Int) : Rat) - ((8000 : Int) : Rat) < 1/2 := by
    push_cast
    norm_num
  rw [if_pos hc1]
  push_cast
  norm_num

/-- C8 counterexample: over 3 jobs with 1 failure the code returns the
two-decimal rounding `66.67`, which differs from the claim's exact
percentage `(3 − 1) / 3 * 100 = 200 / 3`. -/
theorem success_rate_rounding_cex :
    (get_job_statistics (mkStore [mkJob 1 JobStatus.success,
        mkJob 2 JobStatus.success, mkJob 3 JobStatus.failed])
      none).success_rate = 6667 / 100 ∧
    (6667 / 100 : Rat) ≠ ((3 : Rat) - 1) / 3 * 100 := by
  constructor
  · show (if 0 < (3 : Nat) then
        pyRound2 ((((3 : Nat) : Rat) - ((1 : Nat) : Rat)) /
          ((3 : Nat) : Rat) * 100)
      else 0) = 6667 / 100
    rw [if_pos (by norm_num)]
    have harg : (((3 : Nat) : Rat) - ((1 : Nat) : Rat)) /
        ((3 : Nat) : Rat) * 100 = (200 : Rat)/3 := by
      push_cast
      norm_num
    rw [harg, pyRound2_two_thirds]
  · norm_num

/-- C8 (amended): `get_job_statistics` returns per-status counts that
partition the (optionally user-scoped) table, with
`success_rate = (total − failed) / total` as a percentage rounded
half-to-even to two decimal places (`0` when `total = 0`); over the
Scenario E store of 10 jobs (7 success, 2 failed, 1 cancelled) it returns
`total=10, success=7, failed=2, cancelled=1, success_rate=80`, the
rounding being exact there. -/
theorem get_job_statistics_spec (s : Store) (uid : Option Nat) :
    (get_job_statistics s uid).pending +
      (get_job_statistics s uid).running +
      (get_job_statistics s uid).success +
      (get_job_statistics s uid).failed +
      (get_job_statistics s uid).cancelled =
      (get_job_statistics s uid).total ∧
    (get_job_statistics s uid).failed ≤ (get_job_statistics s uid).total ∧
    (get_job_statistics s uid).success_rate =
      (if 0 < (get_job_statistics s uid).total then
        pyRound2 ((((get_job_statistics s uid).total : Rat) -
          ((get_job_statistics s uid).failed : Rat)) /
          ((get_job_statistics s uid).total : Rat) * 100)
        else 0) ∧
    (get_job_statistics scenarioEStore none).total = 10 ∧
    (get_job_statistics scenarioEStore none).pending = 0 ∧
    (get_job_statistics scenarioEStore none).running = 0 ∧
    (get_job_statistics scenarioEStore none).success = 7 ∧
    (get_job_statistics scenarioEStore none).failed = 2 ∧
    (get_job_statistics scenarioEStore none).cancelled = 1 ∧
    (get_job_statistics scenarioEStore none).success_rate = 80 := by
  refine ⟨?_, ?_, ?_, by decide, by decide, by decide, by decide,
    by decide, by decide, ?_⟩
  · simp only [get_job_statistics]
    exact status_counts_partition _
  · simp only [get_job_statistics]
    exact List.length_filter_le _ _
  · simp only [get_job_statistics]
  · show (if 0 < (10 : Nat) then
        pyRound2 ((((10 : Nat) : Rat) - ((2 : Nat) : Rat)) /
          ((10 : Nat) : Rat) * 100)
      else 0) = 80
    rw [if_pos (by norm_num)]
    have harg : (((10 : Nat) : Rat) - ((2 : Nat) : Rat)) /
        ((10 : Nat) : Rat) * 100 = (80 : Rat) := by
      push_cast
      norm_num
    rw [harg, pyRound2_eighty]

/-- The `ORDER BY` result is ascending in `line_number`. -/
theorem pairwise_line_insertionSort (l : List JobLog) :
    List.Pairwise (fun a b : JobLog => a.line_number ≤ b.line_number)
      (List.insertionSort logLE l) := by
  have h := List.sorted_insertionSort logLE l
  refine h.imp ?_
  intro a b hab
  rcases hab with h1 | ⟨h1, _⟩
  · exact le_of_lt h1
  · exact le_of_eq h1

/-- C9 counterexample: with `start_line` absent, `get_job_logs` applies no
lower bound at all — a stored line with the negative line number `-1` is
returned, while the claimed default bound `line_number ≥ 0` would have
excluded it. -/
theorem get_job_logs_default_no_filter_cex :
    get_job_logs (mkLogStore [negLog]) 1 none none = [negLog] ∧
    negLog.line_number < 0 := by
  exact ⟨rfl, by decide⟩

/-- C9 (amended): `get_job_logs` returns the stored lines of the job with
`line_number ≥ start_line` when `start_line` is given and nonzero — when
it is absent (or 0) no lower bound is applied, which coincides with the
claimed default bound 0 whenever all stored line numbers are non-negative
— ordered ascending by `line_number` and truncated to `limit` lines when
`limit` is given and nonzero; Scenario D holds: after appending
`"line-0"`, `"line-1"`, `"line-2"` in order, `start_line=1, limit=1`
returns exactly `["line-1"]`. -/
theorem get_job_logs_spec (s : Store) (jid : Nat) (st : Option Int)
    (lim : Option Nat) :
    List.Pairwise (fun a b : JobLog => a.line_number ≤ b.line_number)
      (get_job_logs s jid st lim) ∧
    (∀ x ∈ get_job_logs s jid st lim, x ∈ s.job_logs ∧ x.job_id = jid ∧
      (intTruthy st = true → st.getD 0 ≤ x.line_number)) ∧
    (natTruthy lim = true →
      (get_job_logs s jid st lim).length ≤ lim.getD 0) ∧
    (natTruthy lim = false → intTruthy st = true →
      (get_job_logs s jid st lim).Perm
        ((s.job_logs.filter (fun l => l.job_id == jid)).filter
          (fun l => decide (st.getD 0 ≤ l.line_number)))) ∧
    (natTruthy lim = false → intTruthy st = false →
      (get_job_logs s jid st lim).Perm
        (s.job_logs.filter (fun l => l.job_id == jid))) ∧
    (get_job_logs scenarioDStore 1 (some 1) (some 1)).map
      (fun l => l.content) = ["line-1"] := by
  have hbase : ∀ x ∈ s.job_logs.filter (fun l => l.job_id == jid),
      x ∈ s.job_logs ∧ x.job_id = jid := by
    intro x hx
    rcases List.mem_filter.mp hx with ⟨h1, h2⟩
    exact ⟨h1, by simpa using h2⟩
  cases hst : intTruthy st <;> cases hlim : natTruthy lim <;>
    simp only [get_job_logs, hst, hlim, Bool.false_eq_true,
      Bool.true_eq_false, if_true, if_false]
  · refine ⟨pairwise_line_insertionSort _, ?_, ?_, ?_, ?_, by decide⟩
    · intro x hx
      have hx2 := (List.mem_insertionSort logLE).mp hx
      rcases hbase x hx2 with ⟨h1, h2⟩
      exact ⟨h1, h2, fun h0 => h0.elim⟩
    · intro h0
      exact h0.elim
    · intro _ h0
      exact h0.elim
    · intro _ _
      exact List.perm_insertionSort logLE _
  · refine ⟨(pairwise_line_insertionSort _).sublist
      (List.take_sublist _ _), ?_, ?_, ?_, ?_, by decide⟩
    · intro x hx
      have hx2 := (List.mem_insertionSort logLE).mp
        (List.mem_of_mem_take hx)
      rcases hbase x hx2 with ⟨h1, h2⟩
      exact ⟨h1, h2, fun h0 => h0.elim⟩
    · intro _
      exact List.length_take_le _ _
    · intro h0
      exact h0.elim
    · intro h0
      exact h0.elim
  · refine ⟨pairwise_line_insertionSort _, ?_, ?_, ?_, ?_, by decide⟩
    · intro x hx
      have hx2 := (List.mem_insertionSort logLE).mp hx
      have hx3 := List.mem_filter.mp hx2
      rcases hbase x hx3.1 with ⟨h1, h2⟩
      exact ⟨h1, h2, fun _ => of_decide_eq_true hx3.2⟩
    · intro h0
      exact h0.elim
    · intro _ _
      exact List.perm_insertionSort logLE _
    · intro _ h0
      exact h0.elim
  · refine ⟨(pairwise_line_insertionSort _).sublist
      (List.take_sublist _ _), ?_, ?_, ?_, ?_, by decide⟩
    · intro x hx
      have hx2 := (List.mem_insertionSort logLE).mp
        (List.mem_of_mem_take hx)
      have hx3 := List.mem_filter.mp hx2
      rcases hbase x hx3.1 with ⟨h1, h2⟩
      exact ⟨h1, h2, fun _ => of_decide_eq_true hx3.2⟩
    · intro _
      exact List.length_take_le _ _
    · intro h0
      exact h0.elim
    · intro h0
      exact h0.elim

/-- C10: at `get_job_logs`, the arguments `start_line=0` and `limit=0`
are falsy exactly like absent arguments: `start_line=0` applies no lower
bound and `limit=0` imposes no truncation — on the Scenario D store the
call with both zeros returns all three lines rather than zero lines. -/
theorem get_job_logs_zero_args_spec (s : Store) (jid : Nat)
    (st : Option Int) (lim : Option Nat) :
    get_job_logs s jid (some 0) lim = get_job_logs s jid none lim ∧
    get_job_logs s jid st (some 0) = get_job_logs s jid st none ∧
    get_job_logs s jid (some 0) (some 0) = get_job_logs s jid none none ∧
    (get_job_logs scenarioDStore 1 (some 0) (some 0)).map
      (fun l => l.content) = ["line-0", "line-1", "line-2"] := by
  exact ⟨rfl, rfl, rfl, by decide⟩
